import Mathlib

/-!
Shallow embedding of the firmware's SHTP packet codec, SH-2 sensor-report
decoder, BLE IMU GATT service and advertising policy state machine, taken
from src/scripts/firmware/src/bno085.c, ble_imu_service.c and
ble_advertising.c together with their headers.

Machine integers are modelled as Nat (or Int for signed error codes) with
explicit reductions mod 2^w exactly where the C code masks or where a
fixed-width type truncates: a mask with 0xFF is written % 256, a mask with
0x7F is written % 128, a right shift by 8 is written / 256 (these are
exact identities on Nat).  Per-channel sequence counters are uint8_t in C
and are modelled as Fin 256, whose addition wraps mod 256 exactly like
the C post-increment.  I2C transfers are modelled by passing the byte
stream the bus would deliver (a List Nat of bytes) and the result code
the transfer primitive would return.
-/

set_option maxRecDepth 8192

namespace Firmware

/-- Success code from nrf_error.h (NRF_ERROR_BASE_NUM + 0). -/
def NRF_SUCCESS : Nat := 0

/-- Invalid-parameter error from nrf_error.h (NRF_ERROR_BASE_NUM + 7). -/
def NRF_ERROR_INVALID_PARAM : Nat := 7

/-- Invalid-state error from nrf_error.h (NRF_ERROR_BASE_NUM + 8). -/
def NRF_ERROR_INVALID_STATE : Nat := 8

/-- Sentinel for no connection, from ble_types.h. -/
def BLE_CONN_HANDLE_INVALID : Nat := 0xFFFF

/-- Success code from bno085.h. -/
def BNO085_OK : Int := 0

/-- I2C communication error from bno085.h. -/
def BNO085_ERR_I2C : Int := -1

/-- Invalid-data (framing/decode) error from bno085.h. -/
def BNO085_ERR_INVALID_DATA : Int := -4

/-- Buffer-overflow error from bno085.h. -/
def BNO085_ERR_BUFFER_OVERFLOW : Int := -6

/-- SHTP header size in bytes, from shtp.h. -/
def SHTP_HEADER_SIZE : Nat := 4

/-- Input-sensor-reports channel number, from shtp.h. -/
def SHTP_CHANNEL_REPORTS : Nat := 3

/-- BNO085 device handle state relevant to the SHTP codec: the uint8_t
per-channel sequence counters, the 512-byte receive buffer and the stored
packet length, from the bno085_t struct in bno085.h. -/
structure Bno085 where
  sequence : Fin 6 → Fin 256
  rx_buffer : List Nat
  rx_len : Nat

instance : DecidableEq Bno085 := fun a b => by
  cases a
  cases b
  exact decidable_of_iff _ (iff_of_eq (Bno085.mk.injEq _ _ _ _ _ _)).symm

/-- Embedding of bno085_send_packet (bno085.c lines 43-78).  Computes
packet_len = len + 4 as the C does in uint16_t, wrapping mod 65536 (so
payload lengths 65532-65535 wrap below the overflow guard), builds the
4-byte SHTP header [len LSB, len MSB masked 0x7F, channel, sequence] in
a 256-byte transmit buffer, post-increments the channel's uint8_t
sequence counter, and attempts one I2C write whose outcome is the
i2c_result parameter (the value twim_write would return, negative on
failure).  Returns the result code, the bytes assembled in the transmit
buffer (empty when the guard rejected the packet; in the wrapped case
the C memcpy overruns the 256-byte buffer, so only the result code and
counters are meaningful there) and the updated device state. -/
def bno085_send_packet (dev : Bno085) (channel : Fin 6) (data : List Nat)
    (i2c_result : Int) : Int × List Nat × Bno085 :=
  let packet_len := (data.length + SHTP_HEADER_SIZE) % 65536
  if packet_len > 256 then
    (BNO085_ERR_BUFFER_OVERFLOW, [], dev)
  else
    let seq := dev.sequence channel
    let tx := [packet_len % 256, (packet_len / 256) % 128, channel.val, seq.val] ++ data
    let dev1 := { dev with sequence := Function.update dev.sequence channel (seq + 1) }
    if i2c_result < 0 then
      (BNO085_ERR_I2C, tx, dev1)
    else
      (BNO085_OK, tx, dev1)

/-- Embedding of bno085_receive_packet (bno085.c lines 86-135).  Reads a
4-byte header from the wire, parses the 15-bit length (low byte or-ed
with the low 7 bits of the high byte shifted by 8), then treats length 0
or 0x7FFF as "no data", length below the header size as invalid data and
length above the 512-byte receive buffer as overflow; otherwise copies
the header and the remaining announced bytes into the receive buffer and
stores the packet length.  The wire list is the byte stream the two
twim_read calls would deliver; hdr_i2c_result and payload_i2c_result are
the codes those calls would return (negative on failure). -/
def bno085_receive_packet (dev : Bno085) (wire : List Nat)
    (hdr_i2c_result payload_i2c_result : Int) : Int × Bno085 :=
  if hdr_i2c_result < 0 then
    (BNO085_ERR_I2C, dev)
  else
    let packet_len := wire.getD 0 0 + (wire.getD 1 0 % 128) * 256
    if packet_len = 0 ∨ packet_len = 0x7FFF then
      (0, dev)
    else if packet_len < SHTP_HEADER_SIZE then
      (BNO085_ERR_INVALID_DATA, dev)
    else if packet_len > 512 then
      (BNO085_ERR_BUFFER_OVERFLOW, dev)
    else
      let header := wire.take 4
      let payload_len := packet_len - SHTP_HEADER_SIZE
      if 0 < payload_len ∧ payload_i2c_result < 0 then
        (BNO085_ERR_I2C, { dev with rx_buffer := header ++ dev.rx_buffer.drop 4 })
      else
        let payload := (wire.drop 4).take payload_len
        (packet_len,
         { dev with
             rx_buffer := header ++ payload ++ dev.rx_buffer.drop packet_len,
             rx_len := packet_len })

/-- SH-2 report id for the calibrated accelerometer, from shtp.h. -/
def SH2_ACCELEROMETER : Nat := 0x01

/-- SH-2 report id for the calibrated gyroscope, from shtp.h. -/
def SH2_GYROSCOPE : Nat := 0x02

/-- SH-2 report id for the calibrated magnetometer, from shtp.h. -/
def SH2_MAGNETOMETER : Nat := 0x03

/-- SH-2 report id for linear acceleration, from shtp.h. -/
def SH2_LINEAR_ACCELERATION : Nat := 0x04

/-- SH-2 report id for the rotation vector, from shtp.h. -/
def SH2_ROTATION_VECTOR : Nat := 0x05

/-- SH-2 report id for the gravity vector, from shtp.h. -/
def SH2_GRAVITY : Nat := 0x06

/-- SH-2 report id for the game rotation vector, from shtp.h. -/
def SH2_GAME_ROTATION_VECTOR : Nat := 0x08

/-- SH-2 report id for the geomagnetic rotation vector, from shtp.h. -/
def SH2_GEOMAGNETIC_ROTATION : Nat := 0x09

/-- SH-2 report id for the step counter, from shtp.h. -/
def SH2_STEP_COUNTER : Nat := 0x11

/-- SH-2 report id for the stability classifier, from shtp.h. -/
def SH2_STABILITY_CLASSIFIER : Nat := 0x13

/-- Q-point for rotation-vector fields (Q14), from shtp.h. -/
def SHTP_Q_ROTATION_VECTOR : Nat := 14

/-- Q-point for accelerometer-family fields (Q8), from shtp.h. -/
def SHTP_Q_ACCELEROMETER : Nat := 8

/-- Q-point for gyroscope fields (Q9), from shtp.h. -/
def SHTP_Q_GYROSCOPE : Nat := 9

/-- Q-point for magnetometer fields (Q4), from shtp.h. -/
def SHTP_Q_MAGNETOMETER : Nat := 4

/-- Q-point for the accuracy field (Q12), from shtp.h. -/
def SHTP_Q_ACCURACY : Nat := 12

/-- Reinterpretation of a uint16 bit pattern as int16, the effect of the
C cast (int16_t)(lo | (hi << 8)) in bno085_parse_sensor_report. -/
def toI16 (u : Nat) : Int :=
  if u % 65536 < 32768 then ((u % 65536 : Nat) : Int)
  else ((u % 65536 : Nat) : Int) - 65536

/-- Embedding of the SHTP_Q_TO_FLOAT macro from shtp.h:
(float)(val) / (float)(1 << q).  For every signed 16-bit val and q at
most 14 the quotient val / 2^q is exactly representable in IEEE-754
binary32 (the numerator fits the 24-bit significand and division by a
power of two only shifts the exponent), so the C float computation is
exact and its value is precisely this rational. -/
def SHTP_Q_TO_FLOAT (val : Int) (q : Nat) : ℚ :=
  (val : ℚ) / ((2 : ℚ) ^ q)

/-- Quaternion sample, from the bno085_quaternion_t struct in bno085.h.
The float fields carry the exact rational value of the decoded binary32
number (see SHTP_Q_TO_FLOAT). -/
structure Bno085Quaternion where
  i : ℚ
  j : ℚ
  k : ℚ
  real : ℚ
  accuracy_rad : ℚ
  status : Nat
deriving DecidableEq

/-- Three-axis vector sample, from the bno085_vector_t struct in bno085.h. -/
structure Bno085Vector where
  x : ℚ
  y : ℚ
  z : ℚ
  accuracy : Nat
deriving DecidableEq

/-- Cached sensor data store, from the bno085_data_t struct in bno085.h. -/
structure Bno085Data where
  rotation_vector : Bno085Quaternion
  game_rotation : Bno085Quaternion
  accelerometer : Bno085Vector
  gyroscope : Bno085Vector
  magnetometer : Bno085Vector
  linear_accel : Bno085Vector
  gravity : Bno085Vector
  step_count : Nat
  stability : Nat
  timestamp_us : Nat
  report_id : Nat
deriving DecidableEq

/-- Embedding of bno085_parse_sensor_report (bno085.c lines 176-360).
Reads the channel byte and payload from the device's receive buffer,
ignores packets not on the input-reports channel (returns 0), rejects
payloads shorter than the 5-byte common sub-header, then dispatches on
the report id byte with a per-type minimum-length check before any field
of the sensor-data structure is written; unknown report ids return 0
without touching the data.  Returns the report id processed (or an error
code) and the updated sensor-data structure. -/
def bno085_parse_sensor_report (dev : Bno085) (data : Bno085Data) :
    Int × Bno085Data :=
  let channel := dev.rx_buffer.getD 2 0
  let payload : Nat → Nat := fun n => dev.rx_buffer.getD (SHTP_HEADER_SIZE + n) 0
  let payload_len := dev.rx_len - SHTP_HEADER_SIZE
  if channel ≠ SHTP_CHANNEL_REPORTS then (0, data)
  else if payload_len < 5 then (BNO085_ERR_INVALID_DATA, data)
  else
    let report_id := payload 0
    if report_id = SH2_ROTATION_VECTOR ∨ report_id = SH2_GAME_ROTATION_VECTOR ∨
        report_id = SH2_GEOMAGNETIC_ROTATION then
      if payload_len < 14 then (BNO085_ERR_INVALID_DATA, data)
      else
        let qi := toI16 (payload 5 + payload 6 * 256)
        let qj := toI16 (payload 7 + payload 8 * 256)
        let qk := toI16 (payload 9 + payload 10 * 256)
        let qreal := toI16 (payload 11 + payload 12 * 256)
        let acc :=
          if report_id = SH2_ROTATION_VECTOR ∧ 16 ≤ payload_len then
            SHTP_Q_TO_FLOAT (toI16 (payload 13 + payload 14 * 256)) SHTP_Q_ACCURACY
          else 0
        let quat : Bno085Quaternion :=
          { i := SHTP_Q_TO_FLOAT qi SHTP_Q_ROTATION_VECTOR
            j := SHTP_Q_TO_FLOAT qj SHTP_Q_ROTATION_VECTOR
            k := SHTP_Q_TO_FLOAT qk SHTP_Q_ROTATION_VECTOR
            real := SHTP_Q_TO_FLOAT qreal SHTP_Q_ROTATION_VECTOR
            accuracy_rad := acc
            status := payload 2 % 4 }
        let data1 :=
          if report_id = SH2_GAME_ROTATION_VECTOR then { data with game_rotation := quat }
          else { data with rotation_vector := quat }
        ((report_id : Int), { data1 with report_id := report_id })
    else if report_id = SH2_ACCELEROMETER ∨ report_id = SH2_LINEAR_ACCELERATION ∨
        report_id = SH2_GRAVITY then
      if payload_len < 10 then (BNO085_ERR_INVALID_DATA, data)
      else
        let vec : Bno085Vector :=
          { x := SHTP_Q_TO_FLOAT (toI16 (payload 5 + payload 6 * 256)) SHTP_Q_ACCELEROMETER
            y := SHTP_Q_TO_FLOAT (toI16 (payload 7 + payload 8 * 256)) SHTP_Q_ACCELEROMETER
            z := SHTP_Q_TO_FLOAT (toI16 (payload 9 + payload 10 * 256)) SHTP_Q_ACCELEROMETER
            accuracy := payload 2 % 4 }
        let data1 :=
          if report_id = SH2_ACCELEROMETER then { data with accelerometer := vec }
          else if report_id = SH2_LINEAR_ACCELERATION then { data with linear_accel := vec }
          else { data with gravity := vec }
        ((report_id : Int), { data1 with report_id := report_id })
    else if report_id = SH2_GYROSCOPE then
      if payload_len < 10 then (BNO085_ERR_INVALID_DATA, data)
      else
        let vec : Bno085Vector :=
          { x := SHTP_Q_TO_FLOAT (toI16 (payload 5 + payload 6 * 256)) SHTP_Q_GYROSCOPE
            y := SHTP_Q_TO_FLOAT (toI16 (payload 7 + payload 8 * 256)) SHTP_Q_GYROSCOPE
            z := SHTP_Q_TO_FLOAT (toI16 (payload 9 + payload 10 * 256)) SHTP_Q_GYROSCOPE
            accuracy := payload 2 % 4 }
        ((report_id : Int), { data with gyroscope := vec, report_id := report_id })
    else if report_id = SH2_MAGNETOMETER then
      if payload_len < 10 then (BNO085_ERR_INVALID_DATA, data)
      else
        let vec : Bno085Vector :=
          { x := SHTP_Q_TO_FLOAT (toI16 (payload 5 + payload 6 * 256)) SHTP_Q_MAGNETOMETER
            y := SHTP_Q_TO_FLOAT (toI16 (payload 7 + payload 8 * 256)) SHTP_Q_MAGNETOMETER
            z := SHTP_Q_TO_FLOAT (toI16 (payload 9 + payload 10 * 256)) SHTP_Q_MAGNETOMETER
            accuracy := payload 2 % 4 }
        ((report_id : Int), { data with magnetometer := vec, report_id := report_id })
    else if report_id = SH2_STEP_COUNTER then
      if payload_len < 9 then (BNO085_ERR_INVALID_DATA, data)
      else
        ((report_id : Int),
         { data with
             step_count := payload 5 + payload 6 * 256 + payload 7 * 65536 +
               payload 8 * 16777216
             report_id := report_id })
    else if report_id = SH2_STABILITY_CLASSIFIER then
      if payload_len < 6 then (BNO085_ERR_INVALID_DATA, data)
      else
        ((report_id : Int), { data with stability := payload 5, report_id := report_id })
    else (0, data)

/-- Minimum payload length demanded by the length check of each report
type the decoder understands, read off the cases of
bno085_parse_sensor_report; none for report ids the decoder does not
recognize. -/
def sh2_min_len (report_id : Nat) : Option Nat :=
  if report_id = SH2_ROTATION_VECTOR ∨ report_id = SH2_GAME_ROTATION_VECTOR ∨
      report_id = SH2_GEOMAGNETIC_ROTATION then some 14
  else if report_id = SH2_ACCELEROMETER ∨ report_id = SH2_LINEAR_ACCELERATION ∨
      report_id = SH2_GRAVITY then some 10
  else if report_id = SH2_GYROSCOPE then some 10
  else if report_id = SH2_MAGNETOMETER then some 10
  else if report_id = SH2_STEP_COUNTER then some 9
  else if report_id = SH2_STABILITY_CLASSIFIER then some 6
  else none

/-- IMU service state, from the ble_imu_service_t struct in
ble_imu_service.h: connection handle (uint16, 0xFFFF when disconnected),
the per-characteristic CCCD / value attribute handles assigned at init,
the four notify-enabled flags, the host-writable sample rate, the status
byte and whether an application event handler was registered (the C
struct stores a possibly-NULL function pointer). -/
structure BleImuService where
  conn_handle : Nat
  quat_cccd_handle : Nat
  accel_cccd_handle : Nat
  gyro_cccd_handle : Nat
  status_cccd_handle : Nat
  rate_value_handle : Nat
  quat_notify_enabled : Bool
  accel_notify_enabled : Bool
  gyro_notify_enabled : Bool
  status_notify_enabled : Bool
  sample_rate_ms : Nat
  status_flags : Nat
  has_evt_handler : Bool
deriving DecidableEq

/-- Events the service delivers to the application, from the
ble_imu_evt_type_t enum in ble_imu_service.h (payload-carrying variants
keep their payload). -/
inductive BleImuEvtType where
  | connected
  | disconnected
  | quat_notify_en
  | quat_notify_dis
  | accel_notify_en
  | accel_notify_dis
  | gyro_notify_en
  | gyro_notify_dis
  | status_notify_en
  | status_notify_dis
  | rate_write (rate_ms : Nat)
  | tx_complete (count : Nat)
deriving DecidableEq

/-- Radio-stack events consumed by the service and the advertising
module: the evt_id values from ble_gap.h / ble_gatts.h together with the
parameters each handler reads. -/
inductive BleEvt where
  | gap_connected (conn_handle : Nat)
  | gap_disconnected
  | gatts_write (handle : Nat) (wdata : List Nat)
  | hvn_tx_complete (count : Nat)
  | adv_set_terminated (reason : Nat)
  | other (evt_id : Nat)
deriving DecidableEq

/-- Events emitted to the application, guarded by the registered-handler
flag exactly as every `if (service->evt_handler != NULL)` guard in
ble_imu_service.c. -/
def imu_emit (service : BleImuService) (e : BleImuEvtType) : List BleImuEvtType :=
  if service.has_evt_handler then [e] else []

/-- Embedding of the static on_write handler (ble_imu_service.c lines
124-203).  Walks the if/else chain over the four CCCD handles and the
rate value handle; a 2-byte CCCD write sets that characteristic's notify
flag from bit 0 of the first written byte and emits the matching
enable/disable event; a 2-byte write on the rate value handle parses a
little-endian uint16 and stores it only when it lies in [1,1000],
emitting a rate-write event; everything else is ignored.  Returns the
updated service and the events delivered to the handler. -/
def on_write (service : BleImuService) (handle : Nat) (wdata : List Nat) :
    BleImuService × List BleImuEvtType :=
  if handle = service.quat_cccd_handle ∧ wdata.length = 2 then
    let enabled := wdata.getD 0 0 % 2 = 1
    let s := { service with quat_notify_enabled := enabled }
    (s, imu_emit service (if enabled then .quat_notify_en else .quat_notify_dis))
  else if handle = service.accel_cccd_handle ∧ wdata.length = 2 then
    let enabled := wdata.getD 0 0 % 2 = 1
    let s := { service with accel_notify_enabled := enabled }
    (s, imu_emit service (if enabled then .accel_notify_en else .accel_notify_dis))
  else if handle = service.gyro_cccd_handle ∧ wdata.length = 2 then
    let enabled := wdata.getD 0 0 % 2 = 1
    let s := { service with gyro_notify_enabled := enabled }
    (s, imu_emit service (if enabled then .gyro_notify_en else .gyro_notify_dis))
  else if handle = service.status_cccd_handle ∧ wdata.length = 2 then
    let enabled := wdata.getD 0 0 % 2 = 1
    let s := { service with status_notify_enabled := enabled }
    (s, imu_emit service (if enabled then .status_notify_en else .status_notify_dis))
  else if handle = service.rate_value_handle ∧ wdata.length = 2 then
    let new_rate := wdata.getD 0 0 + wdata.getD 1 0 * 256
    if 1 ≤ new_rate ∧ new_rate ≤ 1000 then
      ({ service with sample_rate_ms := new_rate },
       imu_emit service (.rate_write new_rate))
    else
      (service, [])
  else
    (service, [])

/-- Embedding of ble_imu_service_on_ble_evt (ble_imu_service.c lines
363-425).  Connected captures the connection handle and clears all four
notify flags; Disconnected emits the event, then clears the handle to
the invalid sentinel and all four flags; GATT writes go to on_write;
TX-complete is forwarded; all other events are ignored. -/
def ble_imu_service_on_ble_evt (service : BleImuService) (evt : BleEvt) :
    BleImuService × List BleImuEvtType :=
  match evt with
  | .gap_connected h =>
      let s := { service with
                   conn_handle := h
                   quat_notify_enabled := false
                   accel_notify_enabled := false
                   gyro_notify_enabled := false
                   status_notify_enabled := false }
      (s, imu_emit s .connected)
  | .gap_disconnected =>
      let evts := imu_emit service .disconnected
      ({ service with
           conn_handle := BLE_CONN_HANDLE_INVALID
           quat_notify_enabled := false
           accel_notify_enabled := false
           gyro_notify_enabled := false
           status_notify_enabled := false },
       evts)
  | .gatts_write handle wdata => on_write service handle wdata
  | .hvn_tx_complete count => (service, imu_emit service (.tx_complete count))
  | _ => (service, [])

/-- Embedding of ble_imu_notify_quaternion (ble_imu_service.c lines
431-453) for a non-NULL service and sample.  Returns the error code and
whether sd_ble_gatts_hvx was invoked; hvx_result is the code the
SoftDevice call would return. -/
def ble_imu_notify_quaternion (service : BleImuService) (quat : List Nat)
    (hvx_result : Nat) : Nat × Bool :=
  if service.conn_handle = BLE_CONN_HANDLE_INVALID then
    (NRF_ERROR_INVALID_STATE, false)
  else if service.quat_notify_enabled = false then
    (NRF_SUCCESS, false)
  else
    (hvx_result, true)

/-- Embedding of ble_imu_notify_accelerometer (ble_imu_service.c lines
455-477), as for the quaternion characteristic. -/
def ble_imu_notify_accelerometer (service : BleImuService) (accel : List Nat)
    (hvx_result : Nat) : Nat × Bool :=
  if service.conn_handle = BLE_CONN_HANDLE_INVALID then
    (NRF_ERROR_INVALID_STATE, false)
  else if service.accel_notify_enabled = false then
    (NRF_SUCCESS, false)
  else
    (hvx_result, true)

/-- Embedding of ble_imu_notify_gyroscope (ble_imu_service.c lines
479-501), as for the quaternion characteristic. -/
def ble_imu_notify_gyroscope (service : BleImuService) (gyro : List Nat)
    (hvx_result : Nat) : Nat × Bool :=
  if service.conn_handle = BLE_CONN_HANDLE_INVALID then
    (NRF_ERROR_INVALID_STATE, false)
  else if service.gyro_notify_enabled = false then
    (NRF_SUCCESS, false)
  else
    (hvx_result, true)

/-- Embedding of ble_imu_notify_status (ble_imu_service.c lines 503-527)
for a non-NULL service.  After the connection check it stores the status
byte, then either silently succeeds (notifications disabled) or sends
one notification.  Also returns the updated service. -/
def ble_imu_notify_status (service : BleImuService) (status : Nat)
    (hvx_result : Nat) : Nat × Bool × BleImuService :=
  if service.conn_handle = BLE_CONN_HANDLE_INVALID then
    (NRF_ERROR_INVALID_STATE, false, service)
  else
    let s := { service with status_flags := status }
    if s.status_notify_enabled = false then
      (NRF_SUCCESS, false, s)
    else
      (hvx_result, true, s)

/-- Advertising mode, from the ble_adv_mode_t enum in ble_advertising.h. -/
inductive AdvMode where
  | idle
  | fast
  | slow
deriving DecidableEq

/-- Advertising events reported to the registered handler, from the
ble_adv_evt_t enum in ble_advertising.h. -/
inductive AdvEvt where
  | started
  | stopped
  | fast_timeout
  | slow_timeout
  | connected
deriving DecidableEq

/-- Module-level state of ble_advertising.c: the m_initialized and
m_adv_mode statics, the configuration fields the modelled paths read
(fast_timeout and auto_restart) and whether an event handler was set
(m_evt_handler non-NULL). -/
structure AdvState where
  initialized : Bool
  mode : AdvMode
  fast_timeout_cfg : Nat
  auto_restart : Bool
  has_handler : Bool
deriving DecidableEq

/-- Calls to the registered advertising event handler, which receives
the event and the value of m_adv_mode at call time; no call when no
handler is registered. -/
def adv_emit (has_handler : Bool) (e : AdvEvt) (mode : AdvMode) :
    List (AdvEvt × AdvMode) :=
  if has_handler then [(e, mode)] else []

/-- Embedding of ble_advertising_start (ble_advertising.c lines
290-331).  Fails with invalid-state when uninitialized or not idle,
picks fast mode when the configured fast duration is positive,
configures and starts the advertising set (sd_cfg_result and
sd_start_result are the codes the two SoftDevice calls would return),
then records the new mode and notifies the handler. -/
def ble_advertising_start (st : AdvState) (sd_cfg_result sd_start_result : Nat) :
    Nat × AdvState × List (AdvEvt × AdvMode) :=
  if st.initialized = false then (NRF_ERROR_INVALID_STATE, st, [])
  else if st.mode ≠ AdvMode.idle then (NRF_ERROR_INVALID_STATE, st, [])
  else
    let start_mode := if 0 < st.fast_timeout_cfg then AdvMode.fast else AdvMode.slow
    if sd_cfg_result ≠ NRF_SUCCESS then (sd_cfg_result, st, [])
    else if sd_start_result ≠ NRF_SUCCESS then (sd_start_result, st, [])
    else
      let s := { st with mode := start_mode }
      (NRF_SUCCESS, s, adv_emit s.has_handler .started s.mode)

/-- Embedding of ble_advertising_on_ble_evt (ble_advertising.c lines
374-447).  Connected forces idle mode and notifies the handler;
Disconnected restarts advertising best-effort when auto_restart is set;
an advertising-set-terminated event with the timeout reason (0x00) in
fast mode notifies the handler of the fast timeout and then reconfigures
and restarts in slow mode, adopting slow mode only when both SoftDevice
calls succeed, while in slow mode it goes idle and reports the slow
timeout; terminations with any other reason and all other events are
ignored.  The sd result parameters feed whichever SoftDevice
configure/start pair the taken branch performs. -/
def ble_advertising_on_ble_evt (st : AdvState) (evt : BleEvt)
    (sd_cfg_result sd_start_result : Nat) : AdvState × List (AdvEvt × AdvMode) :=
  match evt with
  | .gap_connected _ =>
      let s := { st with mode := AdvMode.idle }
      (s, adv_emit s.has_handler .connected s.mode)
  | .gap_disconnected =>
      if st.auto_restart ∧ st.initialized then
        let r := ble_advertising_start st sd_cfg_result sd_start_result
        (r.2.1, r.2.2)
      else (st, [])
  | .adv_set_terminated reason =>
      if reason = 0 then
        if st.mode = AdvMode.fast then
          let evts := adv_emit st.has_handler .fast_timeout st.mode
          if sd_cfg_result = NRF_SUCCESS then
            if sd_start_result = NRF_SUCCESS then
              ({ st with mode := AdvMode.slow }, evts)
            else (st, evts)
          else (st, evts)
        else if st.mode = AdvMode.slow then
          let s := { st with mode := AdvMode.idle }
          (s, adv_emit s.has_handler .slow_timeout s.mode)
        else (st, [])
      else (st, [])
  | _ => (st, [])

/-- Zero quaternion sample, the all-zero initial value of the static
sensor-data store. -/
def bno085_quat_zero : Bno085Quaternion :=
  { i := 0, j := 0, k := 0, real := 0, accuracy_rad := 0, status := 0 }

/-- Zero vector sample, the all-zero initial value of the static
sensor-data store. -/
def bno085_vec_zero : Bno085Vector :=
  { x := 0, y := 0, z := 0, accuracy := 0 }

/-- All-zero sensor-data store, the state after the memset in
bno085_init_config. -/
def bno085_data_zero : Bno085Data :=
  { rotation_vector := bno085_quat_zero
    game_rotation := bno085_quat_zero
    accelerometer := bno085_vec_zero
    gyroscope := bno085_vec_zero
    magnetometer := bno085_vec_zero
    linear_accel := bno085_vec_zero
    gravity := bno085_vec_zero
    step_count := 0
    stability := 0
    timestamp_us := 0
    report_id := 0 }

/-- Freshly zeroed device handle, the state after the memset in
bno085_init_config. -/
def bno085_dev_zero : Bno085 :=
  { sequence := fun _ => 0, rx_buffer := [], rx_len := 0 }

/-- Device state holding one received rotation-vector packet on the
input-reports channel whose int16 fields carry the bit patterns ui, uj,
uk, ur and (Q12 accuracy) ua, little-endian at the offsets
bno085_parse_sensor_report reads; used to instantiate the decoder
theorems. -/
def quat_report_device (ui uj uk ur ua : Nat) : Bno085 :=
  { sequence := fun _ => 0
    rx_buffer := [20, 0, SHTP_CHANNEL_REPORTS, 0,
      SH2_ROTATION_VECTOR, 0, 0, 0, 0,
      ui % 256, ui / 256, uj % 256, uj / 256, uk % 256, uk / 256,
      ur % 256, ur / 256, ua % 256, ua / 256, 0]
    rx_len := 20 }

/-- Device state holding one received 3-axis vector packet with report
id rid on the input-reports channel, int16 bit patterns ux, uy, uz. -/
def vec_report_device (rid ux uy uz : Nat) : Bno085 :=
  { sequence := fun _ => 0
    rx_buffer := [15, 0, SHTP_CHANNEL_REPORTS, 0,
      rid, 0, 0, 0, 0,
      ux % 256, ux / 256, uy % 256, uy / 256, uz % 256, uz / 256]
    rx_len := 15 }

/-- Connected service instance with distinct attribute handles, all
notify flags disabled and a handler registered; used to instantiate the
service theorems. -/
def imu_service_connected_ex : BleImuService :=
  { conn_handle := 0
    quat_cccd_handle := 10
    accel_cccd_handle := 12
    gyro_cccd_handle := 14
    status_cccd_handle := 18
    rate_value_handle := 16
    quat_notify_enabled := false
    accel_notify_enabled := false
    gyro_notify_enabled := false
    status_notify_enabled := false
    sample_rate_ms := 10
    status_flags := 0
    has_evt_handler := true }

/-- Disconnected service instance (connection handle at the invalid
sentinel) whose notify flags are all enabled; used to show the notify
calls' behaviour without a connection. -/
def imu_service_disconnected_ex : BleImuService :=
  { imu_service_connected_ex with
      conn_handle := BLE_CONN_HANDLE_INVALID
      quat_notify_enabled := true
      accel_notify_enabled := true
      gyro_notify_enabled := true
      status_notify_enabled := true }

/-- Advertising module state in fast mode with the default 3000 (x10ms)
fast duration, auto-restart on and a handler registered. -/
def adv_state_fast_ex : AdvState :=
  { initialized := true
    mode := AdvMode.fast
    fast_timeout_cfg := 3000
    auto_restart := true
    has_handler := true }

/-- Advertising module state in slow mode, otherwise as
adv_state_fast_ex. -/
def adv_state_slow_ex : AdvState :=
  { adv_state_fast_ex with mode := AdvMode.slow }

/-- Device state holding a rotation-vector report on the input-reports
channel whose payload is only 6 bytes, shorter than the 14-byte minimum
for that type. -/
def truncated_quat_device : Bno085 :=
  { sequence := fun _ => 0
    rx_buffer := [10, 0, SHTP_CHANNEL_REPORTS, 0, SH2_ROTATION_VECTOR, 0, 0, 0, 0, 0]
    rx_len := 10 }

/-- Device state holding a 5-byte payload on the input-reports channel
whose report id 0x10 (tap detector) the decoder does not recognize. -/
def unknown_report_device : Bno085 :=
  { sequence := fun _ => 0
    rx_buffer := [9, 0, SHTP_CHANNEL_REPORTS, 0, 0x10, 0, 0, 0, 0]
    rx_len := 9 }

/-- Claim C1 as stated is false on the code: a notify-send made with a
non-NULL service and data while there is no connection does not return
NRF_SUCCESS; at this concrete disconnected service (notify flags all
enabled) ble_imu_notify_quaternion returns NRF_ERROR_INVALID_STATE. -/
theorem C1_notify_no_connection_counterexample :
    (ble_imu_notify_quaternion imu_service_disconnected_ex [0] 0).1 ≠ NRF_SUCCESS := by
  decide

/-- Claim C1, amended: a notify-send call made with a non-NULL service
and data while there is a connection but that characteristic's
notify-enabled flag is false returns NRF_SUCCESS and performs no
underlying sd_ble_gatts_hvx call; while there is no connection it
returns NRF_ERROR_INVALID_STATE, likewise without any transmission
call.  The Bool component records whether sd_ble_gatts_hvx was
invoked. -/
theorem C1_notify_gating_amended (s : BleImuService) (q a g : List Nat)
    (stb hvx : Nat) :
    (s.conn_handle = BLE_CONN_HANDLE_INVALID →
      ble_imu_notify_quaternion s q hvx = (NRF_ERROR_INVALID_STATE, false) ∧
      ble_imu_notify_accelerometer s a hvx = (NRF_ERROR_INVALID_STATE, false) ∧
      ble_imu_notify_gyroscope s g hvx = (NRF_ERROR_INVALID_STATE, false) ∧
      ble_imu_notify_status s stb hvx = (NRF_ERROR_INVALID_STATE, false, s)) ∧
    (s.conn_handle ≠ BLE_CONN_HANDLE_INVALID →
      (s.quat_notify_enabled = false →
        ble_imu_notify_quaternion s q hvx = (NRF_SUCCESS, false)) ∧
      (s.accel_notify_enabled = false →
        ble_imu_notify_accelerometer s a hvx = (NRF_SUCCESS, false)) ∧
      (s.gyro_notify_enabled = false →
        ble_imu_notify_gyroscope s g hvx = (NRF_SUCCESS, false)) ∧
      (s.status_notify_enabled = false →
        ble_imu_notify_status s stb hvx =
          (NRF_SUCCESS, false, { s with status_flags := stb }))) := by
  constructor
  · intro h
    simp [ble_imu_notify_quaternion, ble_imu_notify_accelerometer,
      ble_imu_notify_gyroscope, ble_imu_notify_status, h]
  · intro h
    refine ⟨?_, ?_, ?_, ?_⟩ <;> intro hf <;>
      simp [ble_imu_notify_quaternion, ble_imu_notify_accelerometer,
        ble_imu_notify_gyroscope, ble_imu_notify_status, h, hf]

/-- Witness for the amended claim C1 at the two concrete services: the
disconnected instance gets NRF_ERROR_INVALID_STATE with no hvx call, and
the connected instance with the quaternion flag disabled gets
NRF_SUCCESS with no hvx call. -/
theorem C1_notify_gating_amended_witness :
    imu_service_disconnected_ex.conn_handle = BLE_CONN_HANDLE_INVALID ∧
    ble_imu_notify_quaternion imu_service_disconnected_ex [0] 0 =
      (NRF_ERROR_INVALID_STATE, false) ∧
    imu_service_connected_ex.conn_handle ≠ BLE_CONN_HANDLE_INVALID ∧
    imu_service_connected_ex.quat_notify_enabled = false ∧
    ble_imu_notify_quaternion imu_service_connected_ex [0] 0 = (NRF_SUCCESS, false) :=
  ⟨by decide,
   ((C1_notify_gating_amended imu_service_disconnected_ex [0] [0] [0] 0 0).1
     (by decide)).1,
   by decide, by decide,
   ((C1_notify_gating_amended imu_service_connected_ex [0] [0] [0] 0 0).2
     (by decide)).1 (by decide)⟩

/-- Claim C3: after the service processes a Connected event all four
notify-enabled flags read disabled, whatever their values before; after
a Disconnected event the same holds and the connection handle reads the
invalid sentinel 0xFFFF. -/
theorem C3_connect_disconnect_reset (s : BleImuService) (h : Nat) :
    ((ble_imu_service_on_ble_evt s (.gap_connected h)).1.quat_notify_enabled = false ∧
     (ble_imu_service_on_ble_evt s (.gap_connected h)).1.accel_notify_enabled = false ∧
     (ble_imu_service_on_ble_evt s (.gap_connected h)).1.gyro_notify_enabled = false ∧
     (ble_imu_service_on_ble_evt s (.gap_connected h)).1.status_notify_enabled = false) ∧
    ((ble_imu_service_on_ble_evt s .gap_disconnected).1.quat_notify_enabled = false ∧
     (ble_imu_service_on_ble_evt s .gap_disconnected).1.accel_notify_enabled = false ∧
     (ble_imu_service_on_ble_evt s .gap_disconnected).1.gyro_notify_enabled = false ∧
     (ble_imu_service_on_ble_evt s .gap_disconnected).1.status_notify_enabled = false ∧
     (ble_imu_service_on_ble_evt s .gap_disconnected).1.conn_handle =
       BLE_CONN_HANDLE_INVALID) := by
  simp [ble_imu_service_on_ble_evt]

/-- Claim C4: a 2-byte write event on the sample-rate characteristic's
value handle (distinct from the four CCCD handles) carrying a
little-endian u16 outside [1,1000] leaves the stored sample_rate_ms
unchanged and emits no rate-write event, while a value inside [1,1000]
sets sample_rate_ms to exactly that value. -/
theorem C4_rate_write_range (s : BleImuService) (b0 b1 : Nat)
    (hb0 : b0 < 256) (hb1 : b1 < 256)
    (hq : s.rate_value_handle ≠ s.quat_cccd_handle)
    (ha : s.rate_value_handle ≠ s.accel_cccd_handle)
    (hg : s.rate_value_handle ≠ s.gyro_cccd_handle)
    (hs : s.rate_value_handle ≠ s.status_cccd_handle) :
    (¬ (1 ≤ b0 + b1 * 256 ∧ b0 + b1 * 256 ≤ 1000) →
      (ble_imu_service_on_ble_evt s
          (.gatts_write s.rate_value_handle [b0, b1])).1.sample_rate_ms =
        s.sample_rate_ms ∧
      ∀ rate_ms, BleImuEvtType.rate_write rate_ms ∉
        (ble_imu_service_on_ble_evt s (.gatts_write s.rate_value_handle [b0, b1])).2) ∧
    ((1 ≤ b0 + b1 * 256 ∧ b0 + b1 * 256 ≤ 1000) →
      (ble_imu_service_on_ble_evt s
          (.gatts_write s.rate_value_handle [b0, b1])).1.sample_rate_ms =
        b0 + b1 * 256) := by
  constructor
  · intro hout
    simp [ble_imu_service_on_ble_evt, on_write, hq, ha, hg, hs, hout]
  · intro hin
    simp [ble_imu_service_on_ble_evt, on_write, hq, ha, hg, hs, hin]

/-- Witness for claim C4: on the concrete connected service, writing
the out-of-range value 2000 (bytes 208, 7) leaves the rate at 10 and
emits nothing, and writing the in-range value 100 (bytes 100, 0) stores
100. -/
theorem C4_rate_write_range_witness :
    ((208 : Nat) < 256 ∧ (7 : Nat) < 256 ∧
      ¬ (1 ≤ 208 + 7 * 256 ∧ 208 + 7 * 256 ≤ (1000 : Nat)) ∧
      (ble_imu_service_on_ble_evt imu_service_connected_ex
          (.gatts_write imu_service_connected_ex.rate_value_handle
            [208, 7])).1.sample_rate_ms = imu_service_connected_ex.sample_rate_ms) ∧
    ((100 : Nat) < 256 ∧ (0 : Nat) < 256 ∧
      (1 ≤ 100 + 0 * 256 ∧ 100 + 0 * 256 ≤ (1000 : Nat)) ∧
      (ble_imu_service_on_ble_evt imu_service_connected_ex
          (.gatts_write imu_service_connected_ex.rate_value_handle
            [100, 0])).1.sample_rate_ms = 100 + 0 * 256) :=
  ⟨⟨by decide, by decide, by decide,
    ((C4_rate_write_range imu_service_connected_ex 208 7 (by decide) (by decide)
        (by decide) (by decide) (by decide) (by decide)).1 (by decide)).1⟩,
   ⟨by decide, by decide, by decide,
    (C4_rate_write_range imu_service_connected_ex 100 0 (by decide) (by decide)
        (by decide) (by decide) (by decide) (by decide)).2 (by decide)⟩⟩

/-- Claim C5: with the announced 15-bit length L parsed from the 4-byte
header (low byte plus the low 7 bits of the high byte times 256), a
receive returns 0 (no data, not an error) when L is 0 or the 0x7FFF
sentinel, the framing-error code BNO085_ERR_INVALID_DATA when L is
strictly between 0 and the 4-byte header minimum, and the
buffer-overflow error when L exceeds the 512-byte receive buffer (the
sentinel case excepted, which the preceding clause already fixes at 0),
in every case leaving rx_buffer and rx_len unchanged. -/
theorem C5_receive_length_edges (dev : Bno085) (wire : List Nat) :
    ((wire.getD 0 0 + (wire.getD 1 0 % 128) * 256 = 0 ∨
      wire.getD 0 0 + (wire.getD 1 0 % 128) * 256 = 0x7FFF) →
      bno085_receive_packet dev wire 0 0 = (0, dev)) ∧
    ((0 < wire.getD 0 0 + (wire.getD 1 0 % 128) * 256 ∧
      wire.getD 0 0 + (wire.getD 1 0 % 128) * 256 < SHTP_HEADER_SIZE) →
      bno085_receive_packet dev wire 0 0 = (BNO085_ERR_INVALID_DATA, dev)) ∧
    ((512 < wire.getD 0 0 + (wire.getD 1 0 % 128) * 256 ∧
      wire.getD 0 0 + (wire.getD 1 0 % 128) * 256 ≠ 0x7FFF) →
      bno085_receive_packet dev wire 0 0 = (BNO085_ERR_BUFFER_OVERFLOW, dev)) := by
  refine ⟨fun h => ?_, fun h => ?_, fun h => ?_⟩ <;>
    · simp only [bno085_receive_packet, SHTP_HEADER_SIZE] at h ⊢
      split_ifs <;> first | rfl | (exfalso; omega)

/-- Witness for claim C5 on concrete headers: length 0 gives "no data",
length 2 gives the framing error, length 513 gives the overflow error,
each leaving the device state unchanged. -/
theorem C5_receive_length_edges_witness :
    (([0, 0, 9, 9] : List Nat).getD 0 0 + (([0, 0, 9, 9] : List Nat).getD 1 0 % 128) * 256 = 0 ∧
      bno085_receive_packet bno085_dev_zero [0, 0, 9, 9] 0 0 = (0, bno085_dev_zero)) ∧
    ((0 < ([2, 0, 9, 9] : List Nat).getD 0 0 + (([2, 0, 9, 9] : List Nat).getD 1 0 % 128) * 256 ∧
      ([2, 0, 9, 9] : List Nat).getD 0 0 + (([2, 0, 9, 9] : List Nat).getD 1 0 % 128) * 256 <
        SHTP_HEADER_SIZE) ∧
      bno085_receive_packet bno085_dev_zero [2, 0, 9, 9] 0 0 =
        (BNO085_ERR_INVALID_DATA, bno085_dev_zero)) ∧
    ((512 < ([1, 2, 9, 9] : List Nat).getD 0 0 + (([1, 2, 9, 9] : List Nat).getD 1 0 % 128) * 256 ∧
      ([1, 2, 9, 9] : List Nat).getD 0 0 + (([1, 2, 9, 9] : List Nat).getD 1 0 % 128) * 256 ≠
        0x7FFF) ∧
      bno085_receive_packet bno085_dev_zero [1, 2, 9, 9] 0 0 =
        (BNO085_ERR_BUFFER_OVERFLOW, bno085_dev_zero)) :=
  ⟨⟨by decide, (C5_receive_length_edges bno085_dev_zero [0, 0, 9, 9]).1 (by decide)⟩,
   ⟨by decide, (C5_receive_length_edges bno085_dev_zero [2, 0, 9, 9]).2.1 (by decide)⟩,
   ⟨by decide, (C5_receive_length_edges bno085_dev_zero [1, 2, 9, 9]).2.2 (by decide)⟩⟩

/-- Helper: when the uint16 total length wraps (payload length
65532-65535), the overflow guard is bypassed and a send with a
succeeding I2C write returns BNO085_OK with the channel's counter
bumped, exactly as the fitting case. -/
theorem send_packet_wrap_eq (dev : Bno085) (c : Fin 6) (data : List Nat)
    (hwrap : 65536 ≤ data.length + 4) (hu16 : data.length < 65536) :
    bno085_send_packet dev c data 0 = (BNO085_OK,
      [(data.length + 4) % 65536 % 256, (data.length + 4) % 65536 / 256 % 128, c.val,
        (dev.sequence c).val] ++ data,
      { dev with sequence := Function.update dev.sequence c (dev.sequence c + 1) }) := by
  have hnot : ¬ ((data.length + SHTP_HEADER_SIZE) % 65536 > 256) := by
    simp only [SHTP_HEADER_SIZE]
    omega
  simp only [bno085_send_packet, if_neg hnot]
  rw [if_neg (by norm_num : ¬ ((0 : Int) < 0))]
  simp only [SHTP_HEADER_SIZE]

/-- Claim C10 as stated is false on the code for payload lengths whose
16-bit total wraps: at the 65532-byte payload below, the total packet
(65536 bytes) does not fit the 256-byte transmit buffer, yet the uint16
computation len + 4 wraps to 0, the > 256 guard is bypassed, the call
does not return BNO085_ERR_BUFFER_OVERFLOW and channel 1's sequence
counter still advances. -/
theorem C10_wrap_counterexample :
    256 < (List.replicate 65532 (0 : Nat)).length + SHTP_HEADER_SIZE ∧
    (bno085_send_packet bno085_dev_zero 1 (List.replicate 65532 (0 : Nat)) 0).1 ≠
      BNO085_ERR_BUFFER_OVERFLOW ∧
    (bno085_send_packet bno085_dev_zero 1 (List.replicate 65532 (0 : Nat)) 0).2.2.sequence 1 =
      bno085_dev_zero.sequence 1 + 1 := by
  have hsend := send_packet_wrap_eq bno085_dev_zero 1 (List.replicate 65532 (0 : Nat))
    (by rw [List.length_replicate] <;> norm_num) (by rw [List.length_replicate] <;> norm_num)
  refine ⟨?_, ?_, ?_⟩
  · rw [List.length_replicate] <;> norm_num [SHTP_HEADER_SIZE]
  · rw [hsend]
    show BNO085_OK ≠ BNO085_ERR_BUFFER_OVERFLOW
    norm_num [BNO085_OK, BNO085_ERR_BUFFER_OVERFLOW]
  · rw [hsend]
    show Function.update bno085_dev_zero.sequence 1 (bno085_dev_zero.sequence 1 + 1) 1 =
      bno085_dev_zero.sequence 1 + 1
    simp [Function.update_same]

/-- Claim C10, amended: whenever the total packet fits the 256-byte
transmit buffer the channel's sequence counter advances by exactly one
(uint8_t wrap) even when the underlying I2C write fails, in which case
the call returns BNO085_ERR_I2C; when the packet does not fit and the
16-bit total length len + 4 does not wrap (payload length at most
65531), the call returns the buffer-overflow error and leaves every
channel's counter (indeed the whole device state) unchanged; for uint16
payload lengths 65532-65535 the total wraps below the guard, so the
call does not return the buffer-overflow error and the counter still
advances. -/
theorem C10_seq_advances_on_attempt (dev : Bno085) (c : Fin 6) (data : List Nat)
    (i2c_result : Int) :
    (data.length + SHTP_HEADER_SIZE ≤ 256 →
      (bno085_send_packet dev c data i2c_result).2.2.sequence c = dev.sequence c + 1 ∧
      (∀ c2, c2 ≠ c →
        (bno085_send_packet dev c data i2c_result).2.2.sequence c2 = dev.sequence c2) ∧
      (i2c_result < 0 →
        (bno085_send_packet dev c data i2c_result).1 = BNO085_ERR_I2C)) ∧
    (256 < data.length + SHTP_HEADER_SIZE →
      data.length + SHTP_HEADER_SIZE < 65536 →
      bno085_send_packet dev c data i2c_result = (BNO085_ERR_BUFFER_OVERFLOW, [], dev)) ∧
    (65536 ≤ data.length + SHTP_HEADER_SIZE → data.length < 65536 →
      (bno085_send_packet dev c data i2c_result).1 ≠ BNO085_ERR_BUFFER_OVERFLOW ∧
      (bno085_send_packet dev c data i2c_result).2.2.sequence c = dev.sequence c + 1) := by
  refine ⟨fun hfit => ?_, fun hover hlt => ?_, fun hwrap hu16 => ?_⟩
  · have hnot : ¬ ((data.length + SHTP_HEADER_SIZE) % 65536 > 256) := by
      simp only [SHTP_HEADER_SIZE] at hfit ⊢
      omega
    refine ⟨?_, fun c2 hc2 => ?_, fun hi2c => ?_⟩
    · simp only [bno085_send_packet]
      rw [if_neg hnot]
      split_ifs <;> simp
    · simp only [bno085_send_packet]
      rw [if_neg hnot]
      split_ifs <;> simp [Function.update_noteq hc2]
    · simp only [bno085_send_packet]
      rw [if_neg hnot, if_pos hi2c]
  · have hgt : (data.length + SHTP_HEADER_SIZE) % 65536 > 256 := by
      simp only [SHTP_HEADER_SIZE] at hover hlt ⊢
      omega
    simp only [bno085_send_packet]
    rw [if_pos hgt]
  · have hnot : ¬ ((data.length + SHTP_HEADER_SIZE) % 65536 > 256) := by
      simp only [SHTP_HEADER_SIZE] at hwrap hu16 ⊢
      omega
    constructor
    · simp only [bno085_send_packet]
      rw [if_neg hnot]
      split_ifs <;>
        simp [BNO085_ERR_I2C, BNO085_OK, BNO085_ERR_BUFFER_OVERFLOW]
    · simp only [bno085_send_packet]
      rw [if_neg hnot]
      split_ifs <;> simp

/-- Witness for the amended claim C10: a 1-byte payload on channel 1
with a failing I2C write (result -1) advances channel 1's counter and
returns BNO085_ERR_I2C; a 253-byte payload (total 257, no wrap)
overflows and changes nothing; a 65532-byte payload (total wraps to 0)
bypasses the guard and still advances the counter. -/
theorem C10_seq_advances_on_attempt_witness :
    (([42] : List Nat).length + SHTP_HEADER_SIZE ≤ 256 ∧
      (bno085_send_packet bno085_dev_zero 1 [42] (-1)).2.2.sequence 1 =
        bno085_dev_zero.sequence 1 + 1 ∧
      (bno085_send_packet bno085_dev_zero 1 [42] (-1)).1 = BNO085_ERR_I2C) ∧
    (256 < (List.replicate 253 (0 : Nat)).length + SHTP_HEADER_SIZE ∧
      (List.replicate 253 (0 : Nat)).length + SHTP_HEADER_SIZE < 65536 ∧
      bno085_send_packet bno085_dev_zero 1 (List.replicate 253 (0 : Nat)) 0 =
        (BNO085_ERR_BUFFER_OVERFLOW, [], bno085_dev_zero)) ∧
    (65536 ≤ (List.replicate 65532 (0 : Nat)).length + SHTP_HEADER_SIZE ∧
      (List.replicate 65532 (0 : Nat)).length < 65536 ∧
      (bno085_send_packet bno085_dev_zero 1
          (List.replicate 65532 (0 : Nat)) 0).2.2.sequence 1 =
        bno085_dev_zero.sequence 1 + 1) :=
  ⟨⟨by decide,
    ((C10_seq_advances_on_attempt bno085_dev_zero 1 [42] (-1)).1 (by decide)).1,
    ((C10_seq_advances_on_attempt bno085_dev_zero 1 [42] (-1)).1 (by decide)).2.2
      (by decide)⟩,
   ⟨by decide, by decide,
    (C10_seq_advances_on_attempt bno085_dev_zero 1 (List.replicate 253 (0 : Nat)) 0).2.1
      (by decide) (by decide)⟩,
   ⟨by rw [List.length_replicate] <;> norm_num [SHTP_HEADER_SIZE],
    by rw [List.length_replicate] <;> norm_num,
    ((C10_seq_advances_on_attempt bno085_dev_zero 1 (List.replicate 65532 (0 : Nat)) 0).2.2
      (by rw [List.length_replicate] <;> norm_num [SHTP_HEADER_SIZE])
      (by rw [List.length_replicate] <;> norm_num)).2⟩⟩

/-- Helper: on a payload that fits the transmit buffer with a
succeeding I2C write, bno085_send_packet returns success, the explicit
header-plus-payload byte list, and the device with only the addressed
channel's counter bumped. -/
theorem send_packet_ok_eq (dev : Bno085) (c : Fin 6) (data : List Nat)
    (hlen : data.length ≤ 252) :
    bno085_send_packet dev c data 0 = (BNO085_OK,
      (data.length + 4) % 256 :: (data.length + 4) / 256 % 128 :: c.val ::
        (dev.sequence c).val :: data,
      { dev with sequence := Function.update dev.sequence c (dev.sequence c + 1) }) := by
  have hmod : (data.length + 4) % 65536 = data.length + 4 := by omega
  have hne : ¬ (data.length + 4 > 256) := by omega
  simp only [bno085_send_packet, SHTP_HEADER_SIZE, hmod]
  rw [if_neg hne]
  rw [if_neg (by norm_num : ¬ ((0 : Int) < 0))]
  simp

/-- Helper: feeding the byte stream produced by a fitting send back into
bno085_receive_packet parses the full packet length and stores header
and payload verbatim at the front of the receive buffer. -/
theorem receive_of_send_aux (dev2 : Bno085) (b2 sq : Nat) (data : List Nat)
    (hlen : data.length ≤ 252) :
    bno085_receive_packet dev2
      ((data.length + 4) % 256 :: (data.length + 4) / 256 % 128 :: b2 :: sq :: data) 0 0 =
      (((data.length + 4 : Nat) : Int),
       { dev2 with
           rx_buffer := (data.length + 4) % 256 :: (data.length + 4) / 256 % 128 :: b2 ::
             sq :: (data ++ dev2.rx_buffer.drop (data.length + 4))
           rx_len := data.length + 4 }) := by
  have hL : (data.length + 4) % 256 + (data.length + 4) / 256 % 128 % 128 * 256 =
      data.length + 4 := by omega
  simp only [bno085_receive_packet, List.getD_cons_zero, List.getD_cons_succ,
    SHTP_HEADER_SIZE]
  rw [hL]
  rw [if_neg (by norm_num : ¬ ((0 : Int) < 0))]
  rw [if_neg (by omega : ¬ (data.length + 4 = 0 ∨ data.length + 4 = 0x7FFF))]
  rw [if_neg (by omega : ¬ (data.length + 4 < 4))]
  rw [if_neg (by omega : ¬ (data.length + 4 > 512))]
  rw [if_neg (by simp : ¬ (0 < data.length + 4 - 4 ∧ (0 : Int) < 0))]
  simp

/-- Claim C2: for every channel and every payload that fits the 256-byte
transmit buffer (length at most 252), sending with bno085_send_packet
and parsing the produced bytes with bno085_receive_packet recovers the
same channel byte and the same payload bytes; the header's sequence byte
equals the channel's counter before the call, the channel's counter is
exactly one larger afterwards (uint8_t wrap mod 256) and every other
channel's counter is unchanged. -/
theorem C2_send_receive_roundtrip (dev dev2 : Bno085) (c : Fin 6) (data : List Nat)
    (hlen : data.length ≤ 252) :
    (bno085_send_packet dev c data 0).1 = BNO085_OK ∧
    (bno085_send_packet dev c data 0).2.1.getD 3 0 = (dev.sequence c).val ∧
    (bno085_send_packet dev c data 0).2.2.sequence c = dev.sequence c + 1 ∧
    (∀ c2, c2 ≠ c →
      (bno085_send_packet dev c data 0).2.2.sequence c2 = dev.sequence c2) ∧
    (bno085_receive_packet dev2 (bno085_send_packet dev c data 0).2.1 0 0).1 =
      ((data.length + SHTP_HEADER_SIZE : Nat) : Int) ∧
    (bno085_receive_packet dev2 (bno085_send_packet dev c data 0).2.1 0 0).2.rx_len =
      data.length + SHTP_HEADER_SIZE ∧
    (bno085_receive_packet dev2
        (bno085_send_packet dev c data 0).2.1 0 0).2.rx_buffer.getD 2 0 = c.val ∧
    ((bno085_receive_packet dev2 (bno085_send_packet dev c data 0).2.1 0 0).2.rx_buffer.take
        (bno085_receive_packet dev2
          (bno085_send_packet dev c data 0).2.1 0 0).2.rx_len).drop 4 = data := by
  rw [send_packet_ok_eq dev c data hlen]
  simp [receive_of_send_aux dev2 c.val (dev.sequence c).val data hlen,
    SHTP_HEADER_SIZE, Function.update_apply, List.take_append]
  intro c2 h hc
  exact absurd hc h

/-- Witness for claim C2: a 2-byte product-id-request payload on the
control channel roundtrips through send and receive, with the sequence
byte 0 observed and channel 2's counter advanced to 1. -/
theorem C2_send_receive_roundtrip_witness :
    ([0xF9, 0] : List Nat).length ≤ 252 ∧
    ((bno085_send_packet bno085_dev_zero 2 [0xF9, 0] 0).1 = BNO085_OK ∧
     (bno085_send_packet bno085_dev_zero 2 [0xF9, 0] 0).2.1.getD 3 0 =
       (bno085_dev_zero.sequence 2).val ∧
     (bno085_send_packet bno085_dev_zero 2 [0xF9, 0] 0).2.2.sequence 2 =
       bno085_dev_zero.sequence 2 + 1 ∧
     (∀ c2, c2 ≠ (2 : Fin 6) →
       (bno085_send_packet bno085_dev_zero 2 [0xF9, 0] 0).2.2.sequence c2 =
         bno085_dev_zero.sequence c2) ∧
     (bno085_receive_packet bno085_dev_zero
        (bno085_send_packet bno085_dev_zero 2 [0xF9, 0] 0).2.1 0 0).1 =
       ((([0xF9, 0] : List Nat).length + SHTP_HEADER_SIZE : Nat) : Int) ∧
     (bno085_receive_packet bno085_dev_zero
        (bno085_send_packet bno085_dev_zero 2 [0xF9, 0] 0).2.1 0 0).2.rx_len =
       ([0xF9, 0] : List Nat).length + SHTP_HEADER_SIZE ∧
     (bno085_receive_packet bno085_dev_zero
        (bno085_send_packet bno085_dev_zero 2 [0xF9, 0] 0).2.1 0 0).2.rx_buffer.getD 2 0 =
       (2 : Fin 6).val ∧
     ((bno085_receive_packet bno085_dev_zero
          (bno085_send_packet bno085_dev_zero 2 [0xF9, 0] 0).2.1 0 0).2.rx_buffer.take
        (bno085_receive_packet bno085_dev_zero
          (bno085_send_packet bno085_dev_zero 2 [0xF9, 0] 0).2.1 0 0).2.rx_len).drop 4 =
       [0xF9, 0]) :=
  ⟨by decide, C2_send_receive_roundtrip bno085_dev_zero bno085_dev_zero 2 [0xF9, 0]
    (by decide)⟩

/-- Claim C6: for every report type the decoder understands, a payload
on the input-reports channel shorter than that type's minimum length
(per sh2_min_len, read off the decoder's checks) makes
bno085_parse_sensor_report return BNO085_ERR_INVALID_DATA with the
cached sensor-data structure entirely unchanged. -/
theorem C6_truncated_report_error (dev : Bno085) (data : Bno085Data) (m : Nat)
    (hch : dev.rx_buffer.getD 2 0 = SHTP_CHANNEL_REPORTS)
    (hmin : sh2_min_len (dev.rx_buffer.getD 4 0) = some m)
    (hshort : dev.rx_len - SHTP_HEADER_SIZE < m) :
    bno085_parse_sensor_report dev data = (BNO085_ERR_INVALID_DATA, data) := by
  simp only [SHTP_HEADER_SIZE] at hshort
  simp only [List.getD_eq_getElem?_getD] at hch hmin
  by_cases h5 : dev.rx_len - 4 < 5
  · simp [bno085_parse_sensor_report, SHTP_HEADER_SIZE, hch, h5]
  · simp only [sh2_min_len] at hmin
    split_ifs at hmin with h1 h2 h3 h4 hstep hstab <;> cases hmin <;>
      simp_all [bno085_parse_sensor_report, SHTP_HEADER_SIZE, SHTP_CHANNEL_REPORTS,
        SH2_ROTATION_VECTOR, SH2_GAME_ROTATION_VECTOR, SH2_GEOMAGNETIC_ROTATION,
        SH2_ACCELEROMETER, SH2_LINEAR_ACCELERATION, SH2_GRAVITY, SH2_GYROSCOPE,
        SH2_MAGNETOMETER, SH2_STEP_COUNTER, SH2_STABILITY_CLASSIFIER]

/-- Witness for claim C6: a rotation-vector report whose payload is only
6 bytes (device below) decodes to the invalid-data error and leaves the
zeroed data store untouched. -/
theorem C6_truncated_report_error_witness :
    (truncated_quat_device.rx_buffer.getD 2 0 = SHTP_CHANNEL_REPORTS ∧
     sh2_min_len (truncated_quat_device.rx_buffer.getD 4 0) = some 14 ∧
     truncated_quat_device.rx_len - SHTP_HEADER_SIZE < 14) ∧
    bno085_parse_sensor_report truncated_quat_device bno085_data_zero =
      (BNO085_ERR_INVALID_DATA, bno085_data_zero) :=
  ⟨⟨by decide, by decide, by decide⟩,
   C6_truncated_report_error truncated_quat_device bno085_data_zero 14
     (by decide) (by decide) (by decide)⟩

/-- Claim C7: a payload on the input-reports channel of length at least
5 whose first byte is a report id the decoder does not recognize makes
bno085_parse_sensor_report return 0 (a no-op, not an error) with the
cached sensor-data structure unchanged. -/
theorem C7_unknown_report_noop (dev : Bno085) (data : Bno085Data)
    (hch : dev.rx_buffer.getD 2 0 = SHTP_CHANNEL_REPORTS)
    (hlen5 : 5 ≤ dev.rx_len - SHTP_HEADER_SIZE)
    (hunk : sh2_min_len (dev.rx_buffer.getD 4 0) = none) :
    bno085_parse_sensor_report dev data = (0, data) := by
  simp only [SHTP_HEADER_SIZE] at hlen5
  simp only [List.getD_eq_getElem?_getD] at hch hunk
  have h5 : ¬ (dev.rx_len - 4 < 5) := by omega
  simp only [sh2_min_len] at hunk
  split_ifs at hunk with h1 h2 h3 h4 hstep hstab
  simp_all [bno085_parse_sensor_report, SHTP_HEADER_SIZE, SHTP_CHANNEL_REPORTS,
    SH2_ROTATION_VECTOR, SH2_GAME_ROTATION_VECTOR, SH2_GEOMAGNETIC_ROTATION,
    SH2_ACCELEROMETER, SH2_LINEAR_ACCELERATION, SH2_GRAVITY, SH2_GYROSCOPE,
    SH2_MAGNETOMETER, SH2_STEP_COUNTER, SH2_STABILITY_CLASSIFIER]

/-- Witness for claim C7: a 5-byte payload with the unrecognized report
id 0x10 (tap detector) decodes to a no-op 0 and leaves the zeroed data
store untouched. -/
theorem C7_unknown_report_noop_witness :
    (unknown_report_device.rx_buffer.getD 2 0 = SHTP_CHANNEL_REPORTS ∧
     5 ≤ unknown_report_device.rx_len - SHTP_HEADER_SIZE ∧
     sh2_min_len (unknown_report_device.rx_buffer.getD 4 0) = none) ∧
    bno085_parse_sensor_report unknown_report_device bno085_data_zero =
      (0, bno085_data_zero) :=
  ⟨⟨by decide, by decide, by decide⟩,
   C7_unknown_report_noop unknown_report_device bno085_data_zero
     (by decide) (by decide) (by decide)⟩

/-- Claim C8: with a handler registered and the SoftDevice calls
succeeding, an advertising-set-terminated event with the timeout reason
(0x00) in fast mode (hence before any connection) moves the mode to
slow and delivers the fast-timeout notification to the handler exactly
once; the same event in slow mode moves the mode to idle; a Connected
event in fast or slow mode moves the mode to idle. -/
theorem C8_adv_policy_transitions (st : AdvState) (ch cfg2 s2 c3 s3 : Nat)
    (hh : st.has_handler = true) :
    (st.mode = AdvMode.fast →
      (ble_advertising_on_ble_evt st (.adv_set_terminated 0) NRF_SUCCESS
          NRF_SUCCESS).1.mode = AdvMode.slow ∧
      ((ble_advertising_on_ble_evt st (.adv_set_terminated 0) NRF_SUCCESS
          NRF_SUCCESS).2.filter (fun e => e.1 = AdvEvt.fast_timeout)).length = 1) ∧
    (st.mode = AdvMode.slow →
      (ble_advertising_on_ble_evt st (.adv_set_terminated 0) cfg2 s2).1.mode =
        AdvMode.idle) ∧
    ((st.mode = AdvMode.fast ∨ st.mode = AdvMode.slow) →
      (ble_advertising_on_ble_evt st (.gap_connected ch) c3 s3).1.mode =
        AdvMode.idle) := by
  refine ⟨fun hf => ?_, fun hs => ?_, fun _ => ?_⟩
  · simp [ble_advertising_on_ble_evt, hf, hh, adv_emit, NRF_SUCCESS]
  · simp [ble_advertising_on_ble_evt, hs, hh, adv_emit]
  · simp [ble_advertising_on_ble_evt]

/-- Witness for claim C8 at the concrete fast and slow module states:
fast plus terminated-with-timeout yields slow with one fast-timeout
notification, slow plus the same event yields idle, and fast plus
Connected yields idle. -/
theorem C8_adv_policy_transitions_witness :
    (adv_state_fast_ex.has_handler = true ∧ adv_state_fast_ex.mode = AdvMode.fast) ∧
    ((ble_advertising_on_ble_evt adv_state_fast_ex (.adv_set_terminated 0) NRF_SUCCESS
        NRF_SUCCESS).1.mode = AdvMode.slow ∧
     ((ble_advertising_on_ble_evt adv_state_fast_ex (.adv_set_terminated 0) NRF_SUCCESS
        NRF_SUCCESS).2.filter (fun e => e.1 = AdvEvt.fast_timeout)).length = 1) ∧
    (adv_state_slow_ex.mode = AdvMode.slow ∧
     (ble_advertising_on_ble_evt adv_state_slow_ex (.adv_set_terminated 0) 0 0).1.mode =
       AdvMode.idle) ∧
    (ble_advertising_on_ble_evt adv_state_fast_ex (.gap_connected 0) 0 0).1.mode =
      AdvMode.idle :=
  ⟨⟨by decide, by decide⟩,
   (C8_adv_policy_transitions adv_state_fast_ex 0 0 0 0 0 (by decide)).1 (by decide),
   ⟨by decide,
    (C8_adv_policy_transitions adv_state_slow_ex 0 0 0 0 0 (by decide)).2.1 (by decide)⟩,
   (C8_adv_policy_transitions adv_state_fast_ex 0 0 0 0 0 (by decide)).2.2
     (Or.inl (by decide))⟩

/-- Claim C9: decoding reports through the decoder's Q-format conversion
is the exact division of the signed 16-bit raw value by 2 to the report
type's Q value: the rotation-vector fields use Q14 and its accuracy
field Q12, the accelerometer Q8, the gyroscope Q9 and the magnetometer
Q4; the concrete instance raw i=8192, real=8192 giving i=0.5, real=0.5
is checked in the witness.  The rational values are exact: every
int16 / 2^Q is representable in IEEE-754 binary32, so the C float
computation rounds nothing. -/
theorem C9_fixed_point_decode (data : Bno085Data) (ui uj uk ur ua ux uy uz : Nat)
    (hui : ui < 65536) (huj : uj < 65536) (huk : uk < 65536) (hur : ur < 65536)
    (hua : ua < 65536) (hux : ux < 65536) (huy : uy < 65536) (huz : uz < 65536) :
    ((bno085_parse_sensor_report (quat_report_device ui uj uk ur ua)
        data).2.rotation_vector.i = (toI16 ui : ℚ) / 2 ^ 14 ∧
     (bno085_parse_sensor_report (quat_report_device ui uj uk ur ua)
        data).2.rotation_vector.j = (toI16 uj : ℚ) / 2 ^ 14 ∧
     (bno085_parse_sensor_report (quat_report_device ui uj uk ur ua)
        data).2.rotation_vector.k = (toI16 uk : ℚ) / 2 ^ 14 ∧
     (bno085_parse_sensor_report (quat_report_device ui uj uk ur ua)
        data).2.rotation_vector.real = (toI16 ur : ℚ) / 2 ^ 14 ∧
     (bno085_parse_sensor_report (quat_report_device ui uj uk ur ua)
        data).2.rotation_vector.accuracy_rad = (toI16 ua : ℚ) / 2 ^ 12) ∧
    ((bno085_parse_sensor_report (vec_report_device SH2_ACCELEROMETER ux uy uz)
        data).2.accelerometer.x = (toI16 ux : ℚ) / 2 ^ 8 ∧
     (bno085_parse_sensor_report (vec_report_device SH2_ACCELEROMETER ux uy uz)
        data).2.accelerometer.y = (toI16 uy : ℚ) / 2 ^ 8 ∧
     (bno085_parse_sensor_report (vec_report_device SH2_ACCELEROMETER ux uy uz)
        data).2.accelerometer.z = (toI16 uz : ℚ) / 2 ^ 8) ∧
    ((bno085_parse_sensor_report (vec_report_device SH2_GYROSCOPE ux uy uz)
        data).2.gyroscope.x = (toI16 ux : ℚ) / 2 ^ 9 ∧
     (bno085_parse_sensor_report (vec_report_device SH2_GYROSCOPE ux uy uz)
        data).2.gyroscope.y = (toI16 uy : ℚ) / 2 ^ 9 ∧
     (bno085_parse_sensor_report (vec_report_device SH2_GYROSCOPE ux uy uz)
        data).2.gyroscope.z = (toI16 uz : ℚ) / 2 ^ 9) ∧
    ((bno085_parse_sensor_report (vec_report_device SH2_MAGNETOMETER ux uy uz)
        data).2.magnetometer.x = (toI16 ux : ℚ) / 2 ^ 4 ∧
     (bno085_parse_sensor_report (vec_report_device SH2_MAGNETOMETER ux uy uz)
        data).2.magnetometer.y = (toI16 uy : ℚ) / 2 ^ 4 ∧
     (bno085_parse_sensor_report (vec_report_device SH2_MAGNETOMETER ux uy uz)
        data).2.magnetometer.z = (toI16 uz : ℚ) / 2 ^ 4) := by
  have hu : ∀ u : Nat, u % 256 + u / 256 * 256 = u := fun u => by omega
  refine ⟨⟨?_, ?_, ?_, ?_, ?_⟩, ⟨?_, ?_, ?_⟩, ⟨?_, ?_, ?_⟩, ⟨?_, ?_, ?_⟩⟩ <;>
    simp [bno085_parse_sensor_report, quat_report_device, vec_report_device,
      SHTP_HEADER_SIZE, SHTP_CHANNEL_REPORTS, SH2_ROTATION_VECTOR,
      SH2_GAME_ROTATION_VECTOR, SH2_GEOMAGNETIC_ROTATION, SH2_ACCELEROMETER,
      SH2_LINEAR_ACCELERATION, SH2_GRAVITY, SH2_GYROSCOPE, SH2_MAGNETOMETER,
      SH2_STEP_COUNTER, SH2_STABILITY_CLASSIFIER, SHTP_Q_TO_FLOAT,
      SHTP_Q_ROTATION_VECTOR, SHTP_Q_ACCELEROMETER, SHTP_Q_GYROSCOPE,
      SHTP_Q_MAGNETOMETER, SHTP_Q_ACCURACY, hu]

/-- Witness for claim C9, the spec's Scenario B: Q14 raw values i=8192,
j=0, k=0, real=8192 decode to the quaternion i=0.5, j=0, k=0, real=0.5
exactly. -/
theorem C9_fixed_point_decode_witness :
    (8192 : Nat) < 65536 ∧
    (bno085_parse_sensor_report (quat_report_device 8192 0 0 8192 0)
        bno085_data_zero).2.rotation_vector.i = 1 / 2 ∧
    (bno085_parse_sensor_report (quat_report_device 8192 0 0 8192 0)
        bno085_data_zero).2.rotation_vector.j = 0 ∧
    (bno085_parse_sensor_report (quat_report_device 8192 0 0 8192 0)
        bno085_data_zero).2.rotation_vector.k = 0 ∧
    (bno085_parse_sensor_report (quat_report_device 8192 0 0 8192 0)
        bno085_data_zero).2.rotation_vector.real = 1 / 2 := by
  have h := C9_fixed_point_decode bno085_data_zero 8192 0 0 8192 0 0 0 0
    (by decide) (by decide) (by decide) (by decide) (by decide) (by decide)
    (by decide) (by decide)
  refine ⟨by decide, ?_, ?_, ?_, ?_⟩
  · rw [h.1.1]
    norm_num [toI16]
  · rw [h.1.2.1]
    norm_num [toI16]
  · rw [h.1.2.2.1]
    norm_num [toI16]
  · rw [h.1.2.2.2.1]
    norm_num [toI16]

end Firmware
